import Mathlib

/-!
A shallow embedding of the QUIC packet-dispatch core implemented in
`src/quic/node_quic_socket.cc`, together with theorems settling the
frozen claims about it.

Modelling conventions:
* machine integers are `Nat` (with explicit `% 2 ^ 32` where 32-bit
  overflow matters) or `Int` for signed return codes;
* byte strings (connection IDs, raw sockaddr bytes) are `List Nat`;
* external collaborators (the ngtcp2 packet decoder and encoders, the
  `QuicSession` classifier/factory/`Receive`, entropy draws, the UDP
  `Send` primitive and the diagnostic loss draws) are supplied as
  oracle inputs, since their code is outside this translation unit;
* the socket's mutable fields that the dispatch paths read or write are
  carried in an explicit `SocketState`, and each source function becomes
  a state-passing Lean function that additionally returns the trace of
  observable events (packets handed to the endpoint, listener events,
  deliveries to sessions).
-/

/-- Protocol version constant `NGTCP2_PROTO_VER` from the ngtcp2 header
(the spec's `PROTO_VER`, listed as `0x00000001` in its scenario table). -/
def NGTCP2_PROTO_VER : Nat := 0x00000001

/-- `NGTCP2_MAX_CIDLEN` (20). -/
def NGTCP2_MAX_CIDLEN : Nat := 20

/-- `NGTCP2_STATELESS_RESET_TOKENLEN` (16). -/
def NGTCP2_STATELESS_RESET_TOKENLEN : Nat := 16

/-- `NGTCP2_MIN_STATELESS_RESET_RANDLEN` (5). -/
def NGTCP2_MIN_STATELESS_RESET_RANDLEN : Nat := 5

/-- `kRandlen = NGTCP2_MIN_STATELESS_RESET_RANDLEN * 5` from
`QuicSocket::SendStatelessReset`. -/
def kRandlen : Nat := NGTCP2_MIN_STATELESS_RESET_RANDLEN * 5

/-- `kMinStatelessResetLen` (41) from `QuicSocket::SendStatelessReset`. -/
def kMinStatelessResetLen : Nat := 41

/-- One step of the 32-bit FNV-1a loop in `GenerateReservedVersion`:
`h ^= *p; h *= 0x01000193` with `uint32_t` wraparound. -/
def fnv1aStep (h b : Nat) : Nat := ((h ^^^ b) * 0x01000193) % 2 ^ 32

/-- `GenerateReservedVersion` from `node_quic_socket.cc` (lines 47-68):
FNV-1a over the raw sockaddr bytes, continued over the four bytes of
`htonl(version)`, then masked with `h &= 0xf0f0f0f0; h |= 0x0a0a0a0a`.
`addr` is the list of raw sockaddr bytes, iterated in memory order. -/
def GenerateReservedVersion (addr : List Nat) (version : Nat) : Nat :=
  let h1 := addr.foldl fnv1aStep 0x811C9DC5
  let vbytes := [version / 2 ^ 24 % 256, version / 2 ^ 16 % 256,
                 version / 2 ^ 8 % 256, version % 256]
  let h2 := vbytes.foldl fnv1aStep h1
  (h2 &&& 0xf0f0f0f0) ||| 0x0a0a0a0a

/-- Modelled from the spec: the 32-bit FNV-1a hash (offset basis
`0x811C9DC5`, prime `0x01000193`, arithmetic mod `2 ^ 32`) of a byte
string, as one fold over the whole input. -/
def fnv1a32 (bytes : List Nat) : Nat := bytes.foldl fnv1aStep 0x811C9DC5

/-- Modelled from the spec: the four bytes of `htonl(v)` in memory
order, i.e. the big-endian bytes of the 32-bit value `v`. -/
def htonlBytes (v : Nat) : List Nat :=
  [v / 2 ^ 24 % 256, v / 2 ^ 16 % 256, v / 2 ^ 8 % 256, v % 256]

lemma testBit_and_eq_zero {a c : Nat} (h : a &&& c = 0) (i : Nat) :
    (a.testBit i && c.testBit i) = false := by
  rw [← Nat.testBit_and, h, Nat.zero_testBit]

lemma testBit_and_self {b c : Nat} (h : b &&& c = b) (i : Nat) :
    (b.testBit i && c.testBit i) = b.testBit i := by
  rw [← Nat.testBit_and, h]

/-- For any `h`, `((h &&& 0xf0f0f0f0) ||| 0x0a0a0a0a) &&& 0x0f0f0f0f
= 0x0a0a0a0a`: the kept mask and the query mask are disjoint, and the
injected pattern lies inside the query mask. -/
lemma mask_reserved (h : Nat) :
    ((h &&& 0xf0f0f0f0) ||| 0x0a0a0a0a) &&& 0x0f0f0f0f = 0x0a0a0a0a := by
  apply Nat.eq_of_testBit_eq
  intro i
  have hac : ((0xf0f0f0f0 : Nat).testBit i && (0x0f0f0f0f : Nat).testBit i) = false :=
    testBit_and_eq_zero (by decide) i
  have hbc : ((0x0a0a0a0a : Nat).testBit i && (0x0f0f0f0f : Nat).testBit i) =
      (0x0a0a0a0a : Nat).testBit i :=
    testBit_and_self (by decide) i
  simp only [Nat.testBit_and, Nat.testBit_or]
  revert hac hbc
  cases h.testBit i <;>
    cases (0xf0f0f0f0 : Nat).testBit i <;>
      cases (0x0a0a0a0a : Nat).testBit i <;>
        cases (0x0f0f0f0f : Nat).testBit i <;> simp

/-- C8: `GenerateReservedVersion(a, v)` equals the 32-bit FNV-1a hash of
the raw sockaddr bytes followed by the four bytes of `htonl(v)`, masked
to `(h & 0xF0F0F0F0) | 0x0A0A0A0A`; consequently
`(reserved_version(a, v) & 0x0F0F0F0F) == 0x0A0A0A0A` for all inputs. -/
theorem generateReservedVersion_spec (addr : List Nat) (version : Nat) :
    GenerateReservedVersion addr version =
      ((fnv1a32 (addr ++ htonlBytes version)) &&& 0xf0f0f0f0) ||| 0x0a0a0a0a ∧
    GenerateReservedVersion addr version &&& 0x0f0f0f0f = 0x0a0a0a0a := by
  constructor
  · unfold GenerateReservedVersion fnv1a32 htonlBytes
    rw [List.foldl_append]
  · exact mask_reserved _

/-- The mutable `QuicSocket` fields that the dispatch paths read or
write. Peer addresses are identified by their raw sockaddr bytes
(`List Nat`), matching how `SocketAddress` hashes and how
`GenerateReservedVersion` walks the address. The per-peer tables
`addr_counts_` / `reset_counts_` are total functions defaulting to 0,
matching `GetCurrentSocketAddressCounter` /
`GetCurrentStatelessResetCounter` returning 0 for absent entries. -/
structure SocketState where
  listening : Bool
  serverBusy : Bool
  resetDisabled : Bool
  validateAddress : Bool
  maxConnectionsPerHost : Nat
  maxStatelessResetsPerHost : Nat
  addrCounts : List Nat → Nat
  resetCounts : List Nat → Nat
  packetsReceived : Nat
  packetsIgnored : Nat
  statelessResetCount : Nat
  bytesReceived : Nat
  bytesSent : Nat
  packetsSent : Nat

/-- The `initial_connection_close` value computed in
`AcceptInitialPacket`: `NGTCP2_NO_ERROR` or `NGTCP2_SERVER_BUSY`. -/
inductive ECode where
  | noError
  | serverBusy
deriving DecidableEq

/-- A version-negotiation packet as assembled by
`ngtcp2_pkt_write_version_negotiation`: its `dcid` argument becomes the
Destination Connection ID field of the written packet and its `scid`
argument the Source Connection ID field (ngtcp2 contract; the writer is
outside this translation unit). -/
structure VNPacket where
  dstCid : List Nat
  srcCid : List Nat
  versions : List Nat
deriving DecidableEq

/-- Observable events of a dispatch step: deliveries to sessions,
listener callbacks, and packets handed to the preferred endpoint. -/
inductive Event where
  | tokenReceive (ok : Bool)
  | sessionReceive (ok : Bool)
  | sentVersionNegotiation (p : VNPacket)
  | sentRetry
  | sessionReady (s : Option ECode)
  | enqueued (label : String) (len : Nat) (remote : List Nat)
  | onSendInline (status : Int)
deriving DecidableEq

/-- `QuicSocket::OnSend` (lines 861-880): charges `bytes_sent` and
`packets_sent` iff `status == 0`. -/
def OnSend (status : Int) (pktLen : Nat) (st : SocketState) : SocketState :=
  if status = 0 then
    { st with bytesSent := st.bytesSent + pktLen,
              packetsSent := st.packetsSent + 1 }
  else st

/-- `QuicSocket::SendPacket` (lines 819-859). `pktLen` is the packet's
length, `txDrop` the diagnostic tx-loss draw, `err` the synchronous
return of `preferred_endpoint_->Send`. Returns the `int` result, the
new state, and the events. A positive `err` (datagram sent inline by
libuv) is normalized to 0 before `OnSend`. -/
def SendPacket (st : SocketState) (label : String) (pktLen : Nat)
    (remote : List Nat) (txDrop : Bool) (err : Int) :
    Int × SocketState × List Event :=
  if pktLen = 0 then (0, st, [])
  else if txDrop then (0, st, [])
  else if err = 0 then (0, st, [Event.enqueued label pktLen remote])
  else if 0 < err then (0, OnSend 0 pktLen st, [Event.onSendInline 0])
  else (err, OnSend err pktLen st, [Event.onSendInline err])

/-- `QuicSocket::SendVersionNegotiation` (lines 554-585). `sv[0]` is
`GenerateReservedVersion(remote, version)`, `sv[1]` is
`NGTCP2_PROTO_VER`; the received `dcid` is passed as the writer's
`dcid` argument and the received `scid` as its `scid` argument.
`nwrite` is the writer's return; on `nwrite <= 0` nothing is sent. -/
def SendVersionNegotiation (st : SocketState) (version : Nat)
    (dcid scid : List Nat) (remote : List Nat)
    (nwrite : Int) (txDrop : Bool) (sendErr : Int) :
    SocketState × List Event :=
  let sv := [GenerateReservedVersion remote version, NGTCP2_PROTO_VER]
  if nwrite ≤ 0 then (st, [])
  else
    let r := SendPacket st "version negotiation" nwrite.toNat remote txDrop sendErr
    (r.2.1,
     Event.sentVersionNegotiation ⟨dcid, scid, sv⟩ :: r.2.2)

/-- `QuicSocket::SendRetry` (lines 637-685). `tokenGenOk` is the result
of `GenerateRetryToken`, `nwrite` the return of
`ngtcp2_pkt_write_retry`; both are outside this translation unit. -/
def SendRetry (st : SocketState) (tokenGenOk : Bool) (nwrite : Int)
    (remote : List Nat) (txDrop : Bool) (sendErr : Int) :
    Bool × SocketState × List Event :=
  if !tokenGenOk then (false, st, [])
  else if nwrite ≤ 0 then (false, st, [])
  else
    let r := SendPacket st "retry" nwrite.toNat remote txDrop sendErr
    (r.1 = 0, r.2.1, Event.sentRetry :: r.2.2)

/-- The `pktlen = source_len - 1` computation at line 614 in `size_t`
arithmetic: `sourceLen = 0` wraps to `2 ^ 64 - 1`. -/
def sourcePktLen (sourceLen : Nat) : Nat :=
  if sourceLen = 0 then 2 ^ 64 - 1 else sourceLen - 1

/-- `QuicSocket::SendStatelessReset` (lines 587-635). `sourceLen` is
the triggering packet's size. `nwrite` is the return of
`ngtcp2_pkt_write_stateless_reset` (invoked with buffer limit
`NGTCP2_MAX_PKTLEN_IPV4`, not `pktlen`); the emitted packet's length is
set to `nwrite`, and the per-peer reset counter is incremented before
`SendPacket` is consulted. -/
def SendStatelessReset (st : SocketState) (cid : List Nat)
    (remote : List Nat) (sourceLen : Nat)
    (nwrite : Int) (txDrop : Bool) (sendErr : Int) :
    Bool × SocketState × List Event :=
  if st.resetDisabled then (false, st, [])
  else if st.maxStatelessResetsPerHost ≤ st.resetCounts remote then
    (false, st, [])
  else
    if sourcePktLen sourceLen < kMinStatelessResetLen then (false, st, [])
    else if nwrite < (kMinStatelessResetLen : Int) then (false, st, [])
    else
      let st2 := { st with resetCounts :=
        fun p => if p = remote then st.resetCounts remote + 1 else st.resetCounts p }
      let r := SendPacket st2 "stateless reset" nwrite.toNat remote txDrop sendErr
      (r.1 = 0, r.2.1, r.2.2)

/-- `IsShortHeader` (lines 70-77): the decoded packet is a short header
when the decoder reported `version == NGTCP2_PROTO_VER`, a null `pscid`
pointer and `pscidlen == 0`. `scidPresent` models `pscid != nullptr`. -/
def IsShortHeader (version : Nat) (scidPresent : Bool) (scidlen : Nat) : Bool :=
  version == NGTCP2_PROTO_VER && !scidPresent && scidlen == 0

/-- `QuicSocket::MaybeStatelessReset` (lines 401-418). `tokenFound`
models `token_map_.find(possible_token) != end` for the trailing 16
bytes of the datagram, and `tokenRecv` the result of the indexed
session's `Receive`. Returns the boolean result and the events. -/
def MaybeStatelessReset (st : SocketState) (nread : Nat)
    (tokenFound tokenRecv : Bool) : Bool × List Event :=
  if st.resetDisabled ∨ nread < 16 then (false, [])
  else if !tokenFound then (false, [])
  else (tokenRecv, [Event.tokenReceive tokenRecv])

/-- Result of `QuicSession::Accept` (the header-level classifier,
outside this translation unit). -/
inductive InitialPacketResult where
  | PACKET_VERSION
  | PACKET_RETRY
  | PACKET_IGNORE
  | PACKET_OK
deriving DecidableEq

/-- Oracle inputs for one `AcceptInitialPacket` run: the classifier
verdict, the decoded header type, the `validated_addrs` LRU probe, the
retry-token verification, the `QuicSession::CreateServer` outcome, and
the encoder / loss-draw / send results for the packets it may emit. -/
structure AcceptOracle where
  classify : InitialPacketResult
  hdIsInitial : Bool
  isValidatedAddr : Bool
  retryTokenValid : Bool
  factoryOk : Bool
  vnNwrite : Int
  vnTxDrop : Bool
  vnSendErr : Int
  retryTokenGenOk : Bool
  retryNwrite : Int
  retryTxDrop : Bool
  retrySendErr : Int

/-- The `initial_connection_close` computed by the two checks at lines
729-743: `NGTCP2_SERVER_BUSY` iff the server-busy flag is set or the
per-peer connection count has reached `max_connections_per_host_`. -/
def earlyClose (st : SocketState) (remote : List Nat) : ECode :=
  if st.serverBusy then ECode.serverBusy
  else if st.maxConnectionsPerHost ≤ st.addrCounts remote then ECode.serverBusy
  else ECode.noError

/-- `QuicSocket::AcceptInitialPacket` (lines 687-800). Returns the
created session (represented by the `initial_connection_close` it was
built with; `none` when no session results), the new state, and the
events. Note the source invokes `listener_->OnSessionReady(session)`
unconditionally once `QuicSession::CreateServer` has been consulted.
The `validated_addrs_` LRU update of `set_validated_address` is not
tracked: the probe is an oracle input and no claim reads the LRU. -/
def AcceptInitialPacket (st : SocketState) (version : Nat)
    (dcid scid : List Nat) (remote : List Nat) (o : AcceptOracle) :
    Option ECode × SocketState × List Event :=
  if !st.listening then (none, st, [])
  else
    match o.classify with
    | InitialPacketResult.PACKET_VERSION =>
        let r := SendVersionNegotiation st version dcid scid remote
                   o.vnNwrite o.vnTxDrop o.vnSendErr
        (none, r.1, r.2)
    | InitialPacketResult.PACKET_RETRY =>
        let r := SendRetry st o.retryTokenGenOk o.retryNwrite remote
                   o.retryTxDrop o.retrySendErr
        (none, r.2.1, r.2.2)
    | InitialPacketResult.PACKET_IGNORE => (none, st, [])
    | InitialPacketResult.PACKET_OK =>
        let ec := earlyClose st remote
        if ec = ECode.noError ∧ st.validateAddress ∧ o.hdIsInitial ∧
            o.isValidatedAddr = false ∧ o.retryTokenValid = false then
          let r := SendRetry st o.retryTokenGenOk o.retryNwrite remote
                     o.retryTxDrop o.retrySendErr
          (none, r.2.1, r.2.2)
        else
          let s : Option ECode := if o.factoryOk then some ec else none
          (s, st, [Event.sessionReady s])

/-- The decoder output of `ngtcp2_pkt_decode_version_cid` for one
datagram: version, DCID, and SCID (with `scidPresent` modelling a
non-null `pscid` pointer). -/
structure Hdr where
  version : Nat
  dcid : List Nat
  scidPresent : Bool
  scid : List Nat

/-- Oracle inputs for one `OnReceive` run: the rx-loss draw, the
decoder outcome (`none` = decode error), the `FindSession` probe, the
stateless-reset token probe and that session's `Receive` result, the
accept-path oracle, the final session `Receive` result, and the
stateless-reset encoder / loss-draw / send results. -/
structure RecvOracle where
  rxDrop : Bool
  decoded : Option Hdr
  findSession : Bool
  tokenFound : Bool
  tokenRecv : Bool
  accept : AcceptOracle
  sessionRecv : Bool
  resetNwrite : Int
  resetTxDrop : Bool
  resetSendErr : Int

/-- `QuicSocket::OnReceive` (lines 420-552): the demultiplexer.
Returns the new state and the events of the step. -/
def OnReceive (st : SocketState) (nread : Nat) (remote : List Nat)
    (o : RecvOracle) : SocketState × List Event :=
  if o.rxDrop then (st, [])
  else
    let st := { st with bytesReceived := st.bytesReceived + nread }
    match o.decoded with
    | none => ({ st with packetsIgnored := st.packetsIgnored + 1 }, [])
    | some hd =>
      if NGTCP2_MAX_CIDLEN < hd.dcid.length ∨ NGTCP2_MAX_CIDLEN < hd.scid.length then
        ({ st with packetsIgnored := st.packetsIgnored + 1 }, [])
      else if o.findSession then
        if o.sessionRecv then
          ({ st with packetsReceived := st.packetsReceived + 1 },
           [Event.sessionReceive true])
        else
          ({ st with packetsIgnored := st.packetsIgnored + 1 },
           [Event.sessionReceive false])
      else
        let isShort := IsShortHeader hd.version hd.scidPresent hd.scid.length
        let msr := if isShort then MaybeStatelessReset st nread o.tokenFound o.tokenRecv
                   else (false, [])
        if msr.1 then (st, msr.2)
        else
          let acc := AcceptInitialPacket st hd.version hd.dcid hd.scid remote o.accept
          match acc.1 with
          | none =>
            let rr := if isShort then
                        SendStatelessReset acc.2.1 hd.dcid remote nread
                          o.resetNwrite o.resetTxDrop o.resetSendErr
                      else (false, acc.2.1, [])
            if rr.1 then
              ({ rr.2.1 with statelessResetCount := rr.2.1.statelessResetCount + 1 },
               msr.2 ++ acc.2.2 ++ rr.2.2)
            else
              ({ rr.2.1 with packetsIgnored := rr.2.1.packetsIgnored + 1 },
               msr.2 ++ acc.2.2 ++ rr.2.2)
          | some _ =>
            if o.sessionRecv then
              ({ acc.2.1 with packetsReceived := acc.2.1.packetsReceived + 1 },
               msr.2 ++ acc.2.2 ++ [Event.sessionReceive true])
            else
              ({ acc.2.1 with packetsIgnored := acc.2.1.packetsIgnored + 1 },
               msr.2 ++ acc.2.2 ++ [Event.sessionReceive false])

/-- One datagram delivered to `OnReceive` together with its oracle. -/
structure Datagram where
  nread : Nat
  remote : List Nat
  oracle : RecvOracle

/-- Process a sequence of datagrams through `OnReceive`. -/
def runReceives (st : SocketState) (ds : List Datagram) : SocketState :=
  ds.foldl (fun s d => (OnReceive s d.nread d.remote d.oracle).1) st

/-- `SendPacket` only ever charges the tx statistics: the resulting
state agrees with the input state on every other field. -/
lemma SendPacket_txOnly (st : SocketState) (l : String) (n : Nat)
    (r : List Nat) (t : Bool) (e : Int) :
    ∃ b p, (SendPacket st l n r t e).2.1 =
      { st with bytesSent := b, packetsSent := p } := by
  unfold SendPacket OnSend
  repeat' split
  all_goals
    first
      | exact ⟨st.bytesSent, st.packetsSent, rfl⟩
      | exact ⟨st.bytesSent + n, st.packetsSent + 1, rfl⟩

/-- `SendVersionNegotiation` only ever charges the tx statistics. -/
lemma SendVersionNegotiation_txOnly (st : SocketState) (v : Nat)
    (dcid scid remote : List Nat) (nw : Int) (t : Bool) (e : Int) :
    ∃ b p, (SendVersionNegotiation st v dcid scid remote nw t e).1 =
      { st with bytesSent := b, packetsSent := p } := by
  unfold SendVersionNegotiation
  split
  · exact ⟨st.bytesSent, st.packetsSent, rfl⟩
  · exact SendPacket_txOnly ..

/-- `SendRetry` only ever charges the tx statistics. -/
lemma SendRetry_txOnly (st : SocketState) (g : Bool) (nw : Int)
    (remote : List Nat) (t : Bool) (e : Int) :
    ∃ b p, (SendRetry st g nw remote t e).2.1 =
      { st with bytesSent := b, packetsSent := p } := by
  unfold SendRetry
  split
  · exact ⟨st.bytesSent, st.packetsSent, rfl⟩
  · split
    · exact ⟨st.bytesSent, st.packetsSent, rfl⟩
    · exact SendPacket_txOnly ..

/-- `AcceptInitialPacket` only ever charges the tx statistics (its
state effects are confined to the packets it may emit). -/
lemma AcceptInitialPacket_txOnly (st : SocketState) (v : Nat)
    (dcid scid remote : List Nat) (o : AcceptOracle) :
    ∃ b p, (AcceptInitialPacket st v dcid scid remote o).2.1 =
      { st with bytesSent := b, packetsSent := p } := by
  obtain ⟨cl, hi, iv, rv, fo, vnw, vtd, vse, rg, rnw, rtd, rse⟩ := o
  unfold AcceptInitialPacket
  split
  · exact ⟨st.bytesSent, st.packetsSent, rfl⟩
  · cases cl <;> dsimp only
    case PACKET_VERSION => exact SendVersionNegotiation_txOnly ..
    case PACKET_RETRY => exact SendRetry_txOnly ..
    case PACKET_IGNORE => exact ⟨st.bytesSent, st.packetsSent, rfl⟩
    case PACKET_OK =>
      split
      · exact SendRetry_txOnly ..
      · exact ⟨st.bytesSent, st.packetsSent, rfl⟩

/-- `SendStatelessReset` only ever touches the per-peer reset counter
table and the tx statistics. -/
lemma SendStatelessReset_shape (st : SocketState) (cid remote : List Nat)
    (sl : Nat) (nw : Int) (t : Bool) (e : Int) :
    ∃ rc b p, (SendStatelessReset st cid remote sl nw t e).2.1 =
      { st with resetCounts := rc, bytesSent := b, packetsSent := p } := by
  unfold SendStatelessReset
  dsimp only
  repeat' split
  all_goals
    first
      | exact ⟨st.resetCounts, st.bytesSent, st.packetsSent, rfl⟩
      | (obtain ⟨b, p, hb⟩ := SendPacket_txOnly
          { st with resetCounts :=
              fun q => if q = remote then st.resetCounts remote + 1
                       else st.resetCounts q }
          "stateless reset" nw.toNat remote t e
         exact ⟨_, b, p, hb⟩)

/-- The boolean result of `MaybeStatelessReset`, as a formula. -/
lemma MaybeStatelessReset_fst (st : SocketState) (n : Nat) (tf tr : Bool) :
    (MaybeStatelessReset st n tf tr).1 =
      (!st.resetDisabled && decide (16 ≤ n) && tf && tr) := by
  unfold MaybeStatelessReset
  by_cases hn : n < 16
  · have h2 : ¬ (16 ≤ n) := by omega
    cases hd : st.resetDisabled <;> cases tf <;> cases tr <;> simp [hn, hd, h2]
  · have h2 : 16 ≤ n := by omega
    cases hd : st.resetDisabled <;> cases tf <;> cases tr <;> simp [hn, hd, h2]


/- Field-preservation corollaries of the shape lemmas, as `simp`
rules: `AcceptInitialPacket` leaves every field except the tx
statistics unchanged; `SendStatelessReset` additionally may change
`resetCounts`. -/

@[simp] lemma AcceptInitialPacket_listening (st : SocketState) (v : Nat)
    (dcid scid remote : List Nat) (o : AcceptOracle) :
    (AcceptInitialPacket st v dcid scid remote o).2.1.listening = st.listening := by
  obtain ⟨b, p, h⟩ := AcceptInitialPacket_txOnly st v dcid scid remote o
  rw [h]

@[simp] lemma AcceptInitialPacket_serverBusy (st : SocketState) (v : Nat)
    (dcid scid remote : List Nat) (o : AcceptOracle) :
    (AcceptInitialPacket st v dcid scid remote o).2.1.serverBusy = st.serverBusy := by
  obtain ⟨b, p, h⟩ := AcceptInitialPacket_txOnly st v dcid scid remote o
  rw [h]

@[simp] lemma AcceptInitialPacket_resetDisabled (st : SocketState) (v : Nat)
    (dcid scid remote : List Nat) (o : AcceptOracle) :
    (AcceptInitialPacket st v dcid scid remote o).2.1.resetDisabled = st.resetDisabled := by
  obtain ⟨b, p, h⟩ := AcceptInitialPacket_txOnly st v dcid scid remote o
  rw [h]

@[simp] lemma AcceptInitialPacket_validateAddress (st : SocketState) (v : Nat)
    (dcid scid remote : List Nat) (o : AcceptOracle) :
    (AcceptInitialPacket st v dcid scid remote o).2.1.validateAddress = st.validateAddress := by
  obtain ⟨b, p, h⟩ := AcceptInitialPacket_txOnly st v dcid scid remote o
  rw [h]

@[simp] lemma AcceptInitialPacket_maxConnectionsPerHost (st : SocketState) (v : Nat)
    (dcid scid remote : List Nat) (o : AcceptOracle) :
    (AcceptInitialPacket st v dcid scid remote o).2.1.maxConnectionsPerHost = st.maxConnectionsPerHost := by
  obtain ⟨b, p, h⟩ := AcceptInitialPacket_txOnly st v dcid scid remote o
  rw [h]

@[simp] lemma AcceptInitialPacket_maxStatelessResetsPerHost (st : SocketState) (v : Nat)
    (dcid scid remote : List Nat) (o : AcceptOracle) :
    (AcceptInitialPacket st v dcid scid remote o).2.1.maxStatelessResetsPerHost = st.maxStatelessResetsPerHost := by
  obtain ⟨b, p, h⟩ := AcceptInitialPacket_txOnly st v dcid scid remote o
  rw [h]

@[simp] lemma AcceptInitialPacket_addrCounts (st : SocketState) (v : Nat)
    (dcid scid remote : List Nat) (o : AcceptOracle) :
    (AcceptInitialPacket st v dcid scid remote o).2.1.addrCounts = st.addrCounts := by
  obtain ⟨b, p, h⟩ := AcceptInitialPacket_txOnly st v dcid scid remote o
  rw [h]

@[simp] lemma AcceptInitialPacket_packetsReceived (st : SocketState) (v : Nat)
    (dcid scid remote : List Nat) (o : AcceptOracle) :
    (AcceptInitialPacket st v dcid scid remote o).2.1.packetsReceived = st.packetsReceived := by
  obtain ⟨b, p, h⟩ := AcceptInitialPacket_txOnly st v dcid scid remote o
  rw [h]

@[simp] lemma AcceptInitialPacket_packetsIgnored (st : SocketState) (v : Nat)
    (dcid scid remote : List Nat) (o : AcceptOracle) :
    (AcceptInitialPacket st v dcid scid remote o).2.1.packetsIgnored = st.packetsIgnored := by
  obtain ⟨b, p, h⟩ := AcceptInitialPacket_txOnly st v dcid scid remote o
  rw [h]

@[simp] lemma AcceptInitialPacket_statelessResetCount (st : SocketState) (v : Nat)
    (dcid scid remote : List Nat) (o : AcceptOracle) :
    (AcceptInitialPacket st v dcid scid remote o).2.1.statelessResetCount = st.statelessResetCount := by
  obtain ⟨b, p, h⟩ := AcceptInitialPacket_txOnly st v dcid scid remote o
  rw [h]

@[simp] lemma AcceptInitialPacket_bytesReceived (st : SocketState) (v : Nat)
    (dcid scid remote : List Nat) (o : AcceptOracle) :
    (AcceptInitialPacket st v dcid scid remote o).2.1.bytesReceived = st.bytesReceived := by
  obtain ⟨b, p, h⟩ := AcceptInitialPacket_txOnly st v dcid scid remote o
  rw [h]

@[simp] lemma AcceptInitialPacket_resetCounts (st : SocketState) (v : Nat)
    (dcid scid remote : List Nat) (o : AcceptOracle) :
    (AcceptInitialPacket st v dcid scid remote o).2.1.resetCounts = st.resetCounts := by
  obtain ⟨b, p, h⟩ := AcceptInitialPacket_txOnly st v dcid scid remote o
  rw [h]

@[simp] lemma SendStatelessReset_listening (st : SocketState)
    (cid remote : List Nat) (sl : Nat) (nw : Int) (t : Bool) (e : Int) :
    (SendStatelessReset st cid remote sl nw t e).2.1.listening = st.listening := by
  obtain ⟨rc, b, p, h⟩ := SendStatelessReset_shape st cid remote sl nw t e
  rw [h]

@[simp] lemma SendStatelessReset_serverBusy (st : SocketState)
    (cid remote : List Nat) (sl : Nat) (nw : Int) (t : Bool) (e : Int) :
    (SendStatelessReset st cid remote sl nw t e).2.1.serverBusy = st.serverBusy := by
  obtain ⟨rc, b, p, h⟩ := SendStatelessReset_shape st cid remote sl nw t e
  rw [h]

@[simp] lemma SendStatelessReset_resetDisabled (st : SocketState)
    (cid remote : List Nat) (sl : Nat) (nw : Int) (t : Bool) (e : Int) :
    (SendStatelessReset st cid remote sl nw t e).2.1.resetDisabled = st.resetDisabled := by
  obtain ⟨rc, b, p, h⟩ := SendStatelessReset_shape st cid remote sl nw t e
  rw [h]

@[simp] lemma SendStatelessReset_validateAddress (st : SocketState)
    (cid remote : List Nat) (sl : Nat) (nw : Int) (t : Bool) (e : Int) :
    (SendStatelessReset st cid remote sl nw t e).2.1.validateAddress = st.validateAddress := by
  obtain ⟨rc, b, p, h⟩ := SendStatelessReset_shape st cid remote sl nw t e
  rw [h]

@[simp] lemma SendStatelessReset_maxConnectionsPerHost (st : SocketState)
    (cid remote : List Nat) (sl : Nat) (nw : Int) (t : Bool) (e : Int) :
    (SendStatelessReset st cid remote sl nw t e).2.1.maxConnectionsPerHost = st.maxConnectionsPerHost := by
  obtain ⟨rc, b, p, h⟩ := SendStatelessReset_shape st cid remote sl nw t e
  rw [h]

@[simp] lemma SendStatelessReset_maxStatelessResetsPerHost (st : SocketState)
    (cid remote : List Nat) (sl : Nat) (nw : Int) (t : Bool) (e : Int) :
    (SendStatelessReset st cid remote sl nw t e).2.1.maxStatelessResetsPerHost = st.maxStatelessResetsPerHost := by
  obtain ⟨rc, b, p, h⟩ := SendStatelessReset_shape st cid remote sl nw t e
  rw [h]

@[simp] lemma SendStatelessReset_addrCounts (st : SocketState)
    (cid remote : List Nat) (sl : Nat) (nw : Int) (t : Bool) (e : Int) :
    (SendStatelessReset st cid remote sl nw t e).2.1.addrCounts = st.addrCounts := by
  obtain ⟨rc, b, p, h⟩ := SendStatelessReset_shape st cid remote sl nw t e
  rw [h]

@[simp] lemma SendStatelessReset_packetsReceived (st : SocketState)
    (cid remote : List Nat) (sl : Nat) (nw : Int) (t : Bool) (e : Int) :
    (SendStatelessReset st cid remote sl nw t e).2.1.packetsReceived = st.packetsReceived := by
  obtain ⟨rc, b, p, h⟩ := SendStatelessReset_shape st cid remote sl nw t e
  rw [h]

@[simp] lemma SendStatelessReset_packetsIgnored (st : SocketState)
    (cid remote : List Nat) (sl : Nat) (nw : Int) (t : Bool) (e : Int) :
    (SendStatelessReset st cid remote sl nw t e).2.1.packetsIgnored = st.packetsIgnored := by
  obtain ⟨rc, b, p, h⟩ := SendStatelessReset_shape st cid remote sl nw t e
  rw [h]

@[simp] lemma SendStatelessReset_statelessResetCount (st : SocketState)
    (cid remote : List Nat) (sl : Nat) (nw : Int) (t : Bool) (e : Int) :
    (SendStatelessReset st cid remote sl nw t e).2.1.statelessResetCount = st.statelessResetCount := by
  obtain ⟨rc, b, p, h⟩ := SendStatelessReset_shape st cid remote sl nw t e
  rw [h]

@[simp] lemma SendStatelessReset_bytesReceived (st : SocketState)
    (cid remote : List Nat) (sl : Nat) (nw : Int) (t : Bool) (e : Int) :
    (SendStatelessReset st cid remote sl nw t e).2.1.bytesReceived = st.bytesReceived := by
  obtain ⟨rc, b, p, h⟩ := SendStatelessReset_shape st cid remote sl nw t e
  rw [h]

/-- The sum of the three rx-side packet counters that `OnReceive` can
charge for one datagram. -/
def rxSum (st : SocketState) : Nat :=
  st.packetsReceived + st.packetsIgnored + st.statelessResetCount

/-- The datagram was consumed by the stateless-reset-token recognition
path (lines 492-503): no session, short header, and
`MaybeStatelessReset` returned true, in which case `OnReceive` returns
without charging any packet counter. -/
def tokenConsumedB (st : SocketState) (nread : Nat) (o : RecvOracle) : Bool :=
  !o.rxDrop &&
  match o.decoded with
  | none => false
  | some hd =>
    !(decide (NGTCP2_MAX_CIDLEN < hd.dcid.length) ||
      decide (NGTCP2_MAX_CIDLEN < hd.scid.length)) &&
    !o.findSession &&
    IsShortHeader hd.version hd.scidPresent hd.scid.length &&
    (MaybeStatelessReset st nread o.tokenFound o.tokenRecv).1

/-- Per-datagram accounting in `OnReceive`: a non-dropped datagram
charges exactly one of `packets_received`, `packets_ignored`,
`stateless_reset_count`, unless it was consumed by the
stateless-reset-token recognition path, which charges nothing. -/
lemma OnReceive_accounting (st : SocketState) (n : Nat) (r : List Nat) (o : RecvOracle)
    (h : 0 < n) :
    rxSum (OnReceive st n r o).1 + (if tokenConsumedB st n o then 1 else 0)
      = rxSum st + (if o.rxDrop then 0 else 1) := by
  obtain ⟨rxd, dec, fs, tf, tr, ao, srecv, rnw, rtd, rse⟩ := o
  unfold OnReceive tokenConsumedB
  cases rxd
  · -- not dropped
    dsimp only
    cases dec
    · simp [rxSum]; omega
    · rename_i hd
      dsimp only
      by_cases hcid : NGTCP2_MAX_CIDLEN < hd.dcid.length ∨ NGTCP2_MAX_CIDLEN < hd.scid.length
      · rcases hcid with h1 | h1 <;> · simp [h1, rxSum]; omega
      · simp only [if_neg hcid]
        cases fs
        · cases hshort : IsShortHeader hd.version hd.scidPresent hd.scid.length
          · simp only [hshort, Bool.false_eq_true, if_false, Bool.false_and, Bool.and_false]
            rcases hacc : (AcceptInitialPacket
                { st with bytesReceived := st.bytesReceived + n }
                hd.version hd.dcid hd.scid r ao).1 with _ | ec
            · simp [hacc, rxSum]
              omega
            · simp only [hacc]
              cases srecv <;> · simp [rxSum]; omega
          · simp only [hshort, if_true, Bool.true_and]
            cases hmsr : (MaybeStatelessReset
                { st with bytesReceived := st.bytesReceived + n } n tf tr).1
            · simp only [hmsr, Bool.false_eq_true, if_false]
              have hmsr2 : (MaybeStatelessReset st n tf tr).1 = false := by
                rw [MaybeStatelessReset_fst] at hmsr ⊢
                exact hmsr
              rcases hacc : (AcceptInitialPacket
                  { st with bytesReceived := st.bytesReceived + n }
                  hd.version hd.dcid hd.scid r ao).1 with _ | ec
              · simp only [hacc]
                cases hrr : (SendStatelessReset
                    (AcceptInitialPacket
                      { st with bytesReceived := st.bytesReceived + n }
                      hd.version hd.dcid hd.scid r ao).2.1
                    hd.dcid r n rnw rtd rse).1 <;>
                  · simp [hrr, hmsr2, rxSum]; omega
              · simp only [hacc]
                cases srecv <;> · simp [hmsr2, rxSum]; omega
            · have hmsr2 : (MaybeStatelessReset st n tf tr).1 = true := by
                rw [MaybeStatelessReset_fst] at hmsr ⊢
                exact hmsr
              simp [hmsr, hmsr2, rxSum]
              omega
        · -- session found
          cases srecv <;> · simp [rxSum]; omega
  · -- dropped
    simp [rxSum]

/-- `OnReceive` never changes the configuration flags, the limits, or
the per-peer connection table. -/
lemma OnReceive_cfg (st : SocketState) (n : Nat) (r : List Nat) (o : RecvOracle) :
    ((OnReceive st n r o).1).resetDisabled = st.resetDisabled ∧
    ((OnReceive st n r o).1).listening = st.listening ∧
    ((OnReceive st n r o).1).serverBusy = st.serverBusy ∧
    ((OnReceive st n r o).1).validateAddress = st.validateAddress ∧
    ((OnReceive st n r o).1).maxConnectionsPerHost = st.maxConnectionsPerHost ∧
    ((OnReceive st n r o).1).maxStatelessResetsPerHost = st.maxStatelessResetsPerHost ∧
    ((OnReceive st n r o).1).addrCounts = st.addrCounts := by
  obtain ⟨rxd, dec, fs, tf, tr, ao, srecv, rnw, rtd, rse⟩ := o
  unfold OnReceive
  cases rxd
  · dsimp only
    cases dec
    · simp
    · rename_i hd
      dsimp only
      by_cases hcid : NGTCP2_MAX_CIDLEN < hd.dcid.length ∨ NGTCP2_MAX_CIDLEN < hd.scid.length
    
      · simp [hcid]
      · simp only [if_neg hcid]
        cases fs
        · cases hshort : IsShortHeader hd.version hd.scidPresent hd.scid.length
          · simp only [hshort, Bool.false_eq_true, if_false, Bool.false_and, Bool.and_false]
            rcases hacc : (AcceptInitialPacket
                { st with bytesReceived := st.bytesReceived + n }
                hd.version hd.dcid hd.scid r ao).1 with _ | ec
            · simp [hacc]
            · simp only [hacc]
              cases srecv <;> simp
          · simp only [hshort, if_true, Bool.true_and]
            cases hmsr : (MaybeStatelessReset
                { st with bytesReceived := st.bytesReceived + n } n tf tr).1
            · simp only [hmsr, Bool.false_eq_true, if_false]
              rcases hacc : (AcceptInitialPacket
                  { st with bytesReceived := st.bytesReceived + n }
                  hd.version hd.dcid hd.scid r ao).1 with _ | ec
              · simp only [hacc]
                cases hrr : (SendStatelessReset
                    (AcceptInitialPacket
                      { st with bytesReceived := st.bytesReceived + n }
                      hd.version hd.dcid hd.scid r ao).2.1
                    hd.dcid r n rnw rtd rse).1 <;> simp [hrr]
              · simp only [hacc]
                cases srecv <;> simp
            · simp [hmsr]
        · cases srecv <;> simp
  · simp

/-- If every per-peer reset counter respects the cap, it still does
after `SendStatelessReset`: the increment only happens under the guard
`current < max`. -/
lemma SendStatelessReset_resetCounts_le (st : SocketState)
    (cid remote : List Nat) (sl : Nat) (nw : Int) (t : Bool) (e : Int)
    (hb : ∀ q, st.resetCounts q ≤ st.maxStatelessResetsPerHost) :
    ∀ q, (SendStatelessReset st cid remote sl nw t e).2.1.resetCounts q ≤
      st.maxStatelessResetsPerHost := by
  intro q
  unfold SendStatelessReset
  dsimp only
  split
  · exact hb q
  · split
    · exact hb q
    · split
      · exact hb q
      · split
        · exact hb q
        · obtain ⟨b, p, hsp⟩ := SendPacket_txOnly
            { st with resetCounts :=
                fun q2 => if q2 = remote then st.resetCounts remote + 1
                          else st.resetCounts q2 }
            "stateless reset" nw.toNat remote t e
          rw [hsp]
          dsimp only
          split
          · rename_i hguard _ _ hq
            have h1 := hb remote
            omega
          · exact hb q

/-- The reset-counter cap is preserved across a whole `OnReceive`
step. -/
lemma OnReceive_resetCounts_le (st : SocketState) (n : Nat) (r : List Nat)
    (o : RecvOracle)
    (hb : ∀ q, st.resetCounts q ≤ st.maxStatelessResetsPerHost) :
    ∀ q, ((OnReceive st n r o).1).resetCounts q ≤
      st.maxStatelessResetsPerHost := by
  intro q
  obtain ⟨rxd, dec, fs, tf, tr, ao, srecv, rnw, rtd, rse⟩ := o
  unfold OnReceive
  cases rxd
  · dsimp only
    cases dec
    · simpa using hb q
    · rename_i hd
      dsimp only
      by_cases hcid : NGTCP2_MAX_CIDLEN < hd.dcid.length ∨ NGTCP2_MAX_CIDLEN < hd.scid.length
      · simp [hcid]
        exact hb q
      · simp only [if_neg hcid]
        cases fs
        · cases hshort : IsShortHeader hd.version hd.scidPresent hd.scid.length
          · simp only [hshort, Bool.false_eq_true, if_false, Bool.false_and, Bool.and_false]
            rcases hacc : (AcceptInitialPacket
                { st with bytesReceived := st.bytesReceived + n }
                hd.version hd.dcid hd.scid r ao).1 with _ | ec
            · simpa [hacc] using hb q
            · simp only [hacc]
              cases srecv <;> simpa using hb q
          · simp only [hshort, if_true, Bool.true_and]
            cases hmsr : (MaybeStatelessReset
                { st with bytesReceived := st.bytesReceived + n } n tf tr).1
            · simp only [hmsr, Bool.false_eq_true, if_false]
              rcases hacc : (AcceptInitialPacket
                  { st with bytesReceived := st.bytesReceived + n }
                  hd.version hd.dcid hd.scid r ao).1 with _ | ec
              · simp only [hacc]
                have hble : ∀ q2, ((AcceptInitialPacket
                    { st with bytesReceived := st.bytesReceived + n }
                    hd.version hd.dcid hd.scid r ao).2.1).resetCounts q2 ≤
                    ((AcceptInitialPacket
                    { st with bytesReceived := st.bytesReceived + n }
                    hd.version hd.dcid hd.scid r ao).2.1).maxStatelessResetsPerHost := by
                  intro q2
                  simpa using hb q2
                have hres := SendStatelessReset_resetCounts_le _
                  hd.dcid r n rnw rtd rse hble q
                cases hrr : (SendStatelessReset
                    (AcceptInitialPacket
                      { st with bytesReceived := st.bytesReceived + n }
                      hd.version hd.dcid hd.scid r ao).2.1
                    hd.dcid r n rnw rtd rse).1 <;>
                  simpa using hres
              · simp only [hacc]
                cases srecv <;> simpa using hb q
            · simpa [hmsr] using hb q
        · cases srecv <;> simpa using hb q
  · simpa using hb q

lemma tokenConsumedB_congr (st1 st2 : SocketState) (n : Nat) (o : RecvOracle)
    (h : st1.resetDisabled = st2.resetDisabled) :
    tokenConsumedB st1 n o = tokenConsumedB st2 n o := by
  unfold tokenConsumedB
  cases hdec : o.decoded <;> simp [MaybeStatelessReset_fst, h]

/-- The number of datagrams delivered with `nread > 0` that the
rx-loss draw did not drop (the count the claim measures against). -/
def countDelivered (ds : List Datagram) : Nat :=
  ds.countP (fun d => decide (0 < d.nread) && !d.oracle.rxDrop)

/-- The number of datagrams consumed by the stateless-reset-token
recognition path. -/
def countTokenConsumed (st : SocketState) (ds : List Datagram) : Nat :=
  ds.countP (fun d => tokenConsumedB st d.nread d.oracle)

/-- C1 (amended): over any datagram sequence, `packets_received +
packets_ignored + stateless_reset_count` grows by the number of
non-dropped datagrams that were not consumed by the
stateless-reset-token recognition path; datagrams answered by a
successful stateless reset are charged to `stateless_reset_count` and
token-consumed datagrams to no counter, so `packets_received +
packets_ignored` alone undercounts. -/
theorem onReceive_counter_accounting (st0 : SocketState) (ds : List Datagram)
    (h : ∀ d ∈ ds, 0 < d.nread) :
    rxSum (runReceives st0 ds) + countTokenConsumed st0 ds
      = rxSum st0 + countDelivered ds := by
  induction ds generalizing st0 with
  | nil => simp [runReceives, countTokenConsumed, countDelivered]
  | cons d ds ih =>
    have hd0 : 0 < d.nread := h d (by simp)
    have hrest : ∀ d2 ∈ ds, 0 < d2.nread := fun d2 hm => h d2 (by simp [hm])
    have hstep := OnReceive_accounting st0 d.nread d.remote d.oracle hd0
    have hcfg := (OnReceive_cfg st0 d.nread d.remote d.oracle).1
    have hih := ih (OnReceive st0 d.nread d.remote d.oracle).1 hrest
    have hcount : countTokenConsumed (OnReceive st0 d.nread d.remote d.oracle).1 ds
        = countTokenConsumed st0 ds := by
      unfold countTokenConsumed
      apply List.countP_congr
      intro d2 _
      rw [tokenConsumedB_congr _ st0 _ _ hcfg]
    have hrun : runReceives st0 (d :: ds)
        = runReceives (OnReceive st0 d.nread d.remote d.oracle).1 ds := rfl
    have hcd : countDelivered (d :: ds)
        = countDelivered ds + (if decide (0 < d.nread) && !d.oracle.rxDrop then 1 else 0) := by
      unfold countDelivered
      simp [List.countP_cons]
    have hct : countTokenConsumed st0 (d :: ds)
        = countTokenConsumed st0 ds
          + (if tokenConsumedB st0 d.nread d.oracle then 1 else 0) := by
      unfold countTokenConsumed
      simp [List.countP_cons]
    rw [hrun, hcd, hct]
    rw [hcount] at hih
    cases htc : tokenConsumedB st0 d.nread d.oracle <;>
      cases hdrop : d.oracle.rxDrop <;>
        simp [htc, hdrop, hd0] at hstep hih ⊢ <;> omega

/-- A socket state with all counters zero, listening off, stateless
reset enabled, used as the concrete start state for C1. -/
def c1State : SocketState where
  listening := false
  serverBusy := false
  resetDisabled := false
  validateAddress := false
  maxConnectionsPerHost := 10
  maxStatelessResetsPerHost := 10
  addrCounts := fun _ => 0
  resetCounts := fun _ => 0
  packetsReceived := 0
  packetsIgnored := 0
  statelessResetCount := 0
  bytesReceived := 0
  bytesSent := 0
  packetsSent := 0

/-- A 50-byte short-header datagram with unknown DCID that ends in a
successful stateless reset: not dropped, decodes as a short header,
no matching session, no reset token, encoder writes 41 bytes, UDP send
succeeds. -/
def c1Datagram : Datagram where
  nread := 50
  remote := [1, 2, 3, 4]
  oracle :=
    { rxDrop := false
      decoded := some { version := NGTCP2_PROTO_VER, dcid := [7],
                        scidPresent := false, scid := [] }
      findSession := false
      tokenFound := false
      tokenRecv := false
      accept := { classify := InitialPacketResult.PACKET_IGNORE,
                  hdIsInitial := false, isValidatedAddr := false,
                  retryTokenValid := false, factoryOk := false,
                  vnNwrite := 0, vnTxDrop := false, vnSendErr := 0,
                  retryTokenGenOk := false, retryNwrite := 0,
                  retryTxDrop := false, retrySendErr := 0 }
      sessionRecv := false
      resetNwrite := 41
      resetTxDrop := false
      resetSendErr := 0 }

/-- C1 counterexample: one non-dropped datagram with `nread = 50` is
answered by a successful stateless reset; afterwards
`packets_received + packets_ignored = 0` while one such datagram was
delivered, so the claimed equality fails. -/
theorem onReceive_counter_sum_counterexample :
    ¬ ((runReceives c1State [c1Datagram]).packetsReceived
        + (runReceives c1State [c1Datagram]).packetsIgnored
        = countDelivered [c1Datagram]) := by
  decide

/-- Witness for C1 (amended) at the concrete one-datagram run. -/
theorem onReceive_counter_accounting_witness :
    (∀ d ∈ [c1Datagram], 0 < d.nread) ∧
    rxSum (runReceives c1State [c1Datagram])
        + countTokenConsumed c1State [c1Datagram]
      = rxSum c1State + countDelivered [c1Datagram] :=
  ⟨by decide, onReceive_counter_accounting c1State [c1Datagram] (by decide)⟩

/-- C2 (amended): a version-negotiation response carries the received
packet's DCID as the outgoing packet's Destination Connection ID and
the received packet's SCID as its Source Connection ID (the CIDs are
passed through in the same orientation, not swapped), and its version
list is `[reserved_version(remote, version), PROTO_VER]`. -/
theorem sendVersionNegotiation_payload (st : SocketState) (v : Nat)
    (dcid scid remote : List Nat) (o : AcceptOracle)
    (hl : st.listening = true)
    (hc : o.classify = InitialPacketResult.PACKET_VERSION)
    (hw : 0 < o.vnNwrite) :
    (AcceptInitialPacket st v dcid scid remote o).2.2.head? =
      some (Event.sentVersionNegotiation
        ⟨dcid, scid, [GenerateReservedVersion remote v, NGTCP2_PROTO_VER]⟩) := by
  obtain ⟨cl, hi, iv, rv, fo, vnw, vtd, vse, rg, rnw, rtd, rse⟩ := o
  cases hc
  unfold AcceptInitialPacket SendVersionNegotiation
  simp only [hl, Bool.not_true, Bool.false_eq_true, if_false]
  have hw2 : (0 : Int) < vnw := hw
  rw [if_neg (by omega : ¬ vnw ≤ 0)]
  rfl

/-- A listening socket with zeroed counters, for C2. -/
def c2State : SocketState where
  listening := true
  serverBusy := false
  resetDisabled := false
  validateAddress := false
  maxConnectionsPerHost := 10
  maxStatelessResetsPerHost := 10
  addrCounts := fun _ => 0
  resetCounts := fun _ => 0
  packetsReceived := 0
  packetsIgnored := 0
  statelessResetCount := 0
  bytesReceived := 0
  bytesSent := 0
  packetsSent := 0

/-- An accept oracle whose classifier reports a version mismatch and
whose version-negotiation encoder writes 23 bytes. -/
def c2Oracle : AcceptOracle where
  classify := InitialPacketResult.PACKET_VERSION
  hdIsInitial := false
  isValidatedAddr := false
  retryTokenValid := false
  factoryOk := false
  vnNwrite := 23
  vnTxDrop := false
  vnSendErr := 0
  retryTokenGenOk := false
  retryNwrite := 0
  retryTxDrop := false
  retrySendErr := 0

/-- C2 counterexample: for a triggering packet with DCID `AAAA` and
SCID `BBBB`, the emitted version-negotiation packet's Destination
Connection ID is the received DCID `AAAA`, not the received SCID
`BBBB` as the claim states (the two CIDs differ, so the claim fails
here). -/
theorem sendVersionNegotiation_swap_counterexample :
    (AcceptInitialPacket c2State 0x01020304 [170, 170] [187, 187]
        [2, 0, 31, 144, 10, 0, 0, 1] c2Oracle).2.2.head? =
      some (Event.sentVersionNegotiation
        ⟨[170, 170], [187, 187],
         [GenerateReservedVersion [2, 0, 31, 144, 10, 0, 0, 1] 0x01020304,
          NGTCP2_PROTO_VER]⟩) ∧
    ([170, 170] : List Nat) ≠ [187, 187] := by
  constructor
  · decide
  · decide

/-- Witness for C2 (amended) at the concrete C2 input. -/
theorem sendVersionNegotiation_payload_witness :
    c2State.listening = true ∧
    c2Oracle.classify = InitialPacketResult.PACKET_VERSION ∧
    0 < c2Oracle.vnNwrite ∧
    (AcceptInitialPacket c2State 0x01020304 [170, 170] [187, 187]
        [2, 0, 31, 144, 10, 0, 0, 1] c2Oracle).2.2.head? =
      some (Event.sentVersionNegotiation
        ⟨[170, 170], [187, 187],
         [GenerateReservedVersion [2, 0, 31, 144, 10, 0, 0, 1] 0x01020304,
          NGTCP2_PROTO_VER]⟩) :=
  ⟨rfl, rfl, by decide,
   sendVersionNegotiation_payload c2State 0x01020304 [170, 170] [187, 187]
     [2, 0, 31, 144, 10, 0, 0, 1] c2Oracle rfl rfl (by decide)⟩

/-- Whether the event list contains a listener `OnSessionReady`
invocation. -/
def sessionReadyRaised (evs : List Event) : Bool :=
  evs.any fun e =>
    match e with
    | Event.sessionReady _ => true
    | _ => false

/-- `SendPacket` raises no session-ready event. -/
lemma sessionReadyRaised_sendPacket (st : SocketState) (l : String) (n : Nat)
    (r : List Nat) (t : Bool) (e : Int) :
    sessionReadyRaised (SendPacket st l n r t e).2.2 = false := by
  unfold SendPacket sessionReadyRaised
  repeat' split
  all_goals rfl

/-- `SendVersionNegotiation` raises no session-ready event. -/
lemma sessionReadyRaised_sendVN (st : SocketState) (v : Nat)
    (dcid scid remote : List Nat) (nw : Int) (t : Bool) (e : Int) :
    sessionReadyRaised (SendVersionNegotiation st v dcid scid remote nw t e).2 = false := by
  unfold SendVersionNegotiation
  split
  · rfl
  · have := sessionReadyRaised_sendPacket st "version negotiation" nw.toNat remote t e
    unfold sessionReadyRaised at this ⊢
    simp [this]

/-- `SendRetry` raises no session-ready event. -/
lemma sessionReadyRaised_sendRetry (st : SocketState) (g : Bool) (nw : Int)
    (remote : List Nat) (t : Bool) (e : Int) :
    sessionReadyRaised (SendRetry st g nw remote t e).2.2 = false := by
  unfold SendRetry
  split
  · rfl
  · split
    · rfl
    · have := sessionReadyRaised_sendPacket st "retry" nw.toNat remote t e
      unfold sessionReadyRaised at this ⊢
      simp [this]

/-- The condition under which `AcceptInitialPacket` bails out with a
retry instead of reaching the session factory (lines 754-773). -/
def retryBail (st : SocketState) (remote : List Nat) (o : AcceptOracle) : Bool :=
  decide (earlyClose st remote = ECode.noError) && st.validateAddress &&
  o.hdIsInitial && !o.isValidatedAddr && !o.retryTokenValid

/-- C3 (amended): `session_ready` is raised exactly when
`AcceptInitialPacket` reaches the `QuicSession::CreateServer` call
(listening, classifier verdict OK, and the retry-token branch does not
bail), regardless of whether the factory yields a session; in
particular a factory failure still raises `session_ready` with the
empty session even though `accept_initial` returns nothing. -/
theorem acceptInitial_sessionReady (st : SocketState) (v : Nat)
    (dcid scid remote : List Nat) (o : AcceptOracle) :
    sessionReadyRaised (AcceptInitialPacket st v dcid scid remote o).2.2 =
      (st.listening &&
       decide (o.classify = InitialPacketResult.PACKET_OK) &&
       !retryBail st remote o) := by
  obtain ⟨cl, hi, iv, rv, fo, vnw, vtd, vse, rg, rnw, rtd, rse⟩ := o
  unfold AcceptInitialPacket retryBail
  cases hl : st.listening
  · simp [hl]
    rfl
  · simp only [hl, Bool.not_true, Bool.false_eq_true, if_false, Bool.true_and]
    cases cl <;> dsimp only
    case PACKET_VERSION => simp [sessionReadyRaised_sendVN]
    case PACKET_RETRY => simp [sessionReadyRaised_sendRetry]
    case PACKET_IGNORE => simp; rfl
    case PACKET_OK =>
      split
      · rename_i hcond
        rw [sessionReadyRaised_sendRetry]
        obtain ⟨h1, h2, h3, h4, h5⟩ := hcond
        simp [h1, h2, h3, h4, h5]
      · rename_i hcond
        have : sessionReadyRaised [Event.sessionReady
            (if fo = true then some (earlyClose st remote) else none)] = true := by
          unfold sessionReadyRaised
          simp
        rw [this]
        simp only [decide_eq_true_eq, Bool.true_and]
        by_cases h1 : earlyClose st remote = ECode.noError <;>
          cases h2 : st.validateAddress <;> cases hi <;> cases iv <;> cases rv <;>
            simp_all

/-- An accept oracle that reaches the session factory and has it fail,
for C3. -/
def c3Oracle : AcceptOracle where
  classify := InitialPacketResult.PACKET_OK
  hdIsInitial := false
  isValidatedAddr := false
  retryTokenValid := false
  factoryOk := false
  vnNwrite := 0
  vnTxDrop := false
  vnSendErr := 0
  retryTokenGenOk := false
  retryNwrite := 0
  retryTxDrop := false
  retrySendErr := 0

/-- C3 counterexample: with the classifier reporting OK and the session
factory failing, `AcceptInitialPacket` returns nothing, yet the
listener's `OnSessionReady` is still invoked (with the empty session),
contradicting the claimed "no session_ready event is raised". -/
theorem acceptInitial_sessionReady_counterexample :
    (AcceptInitialPacket c2State 1 [1] [2] [9] c3Oracle).1 = none ∧
    sessionReadyRaised (AcceptInitialPacket c2State 1 [1] [2] [9] c3Oracle).2.2
      = true := by
  constructor
  · decide
  · decide

/-- C4 (amended): when no session matches the DCID, the packet is a
short header with `nread >= 16`, stateless reset is enabled, and the
trailing 16 bytes match a token in the token index, the datagram is
delivered to the indexed session's `Receive` and processing stops there
iff that `Receive` returns true (state unchanged apart from
`bytes_received`, no counter charged); when it returns false the accept
path continues and exactly one packet counter is charged. -/
theorem maybeStatelessReset_stop (st : SocketState) (n : Nat) (r : List Nat)
    (o : RecvOracle) (hd : Hdr)
    (hdrop : o.rxDrop = false)
    (hdec : o.decoded = some hd)
    (hc1 : hd.dcid.length ≤ NGTCP2_MAX_CIDLEN)
    (hc2 : hd.scid.length ≤ NGTCP2_MAX_CIDLEN)
    (hfs : o.findSession = false)
    (hshort : IsShortHeader hd.version hd.scidPresent hd.scid.length = true)
    (hdis : st.resetDisabled = false)
    (h16 : 16 ≤ n)
    (htf : o.tokenFound = true) :
    (o.tokenRecv = true →
      OnReceive st n r o =
        ({ st with bytesReceived := st.bytesReceived + n },
         [Event.tokenReceive true])) ∧
    (o.tokenRecv = false →
      rxSum (OnReceive st n r o).1 = rxSum st + 1 ∧
      (OnReceive st n r o).2.head? = some (Event.tokenReceive false)) := by
  have hmsr : MaybeStatelessReset { st with bytesReceived := st.bytesReceived + n }
      n o.tokenFound o.tokenRecv = (o.tokenRecv, [Event.tokenReceive o.tokenRecv]) := by
    unfold MaybeStatelessReset
    have hn : ¬ (n < 16) := by omega
    simp [hdis, htf, hn]
  constructor
  · intro htr
    unfold OnReceive
    simp only [hdrop, Bool.false_eq_true, if_false, hdec]
    rw [if_neg (by omega : ¬ (NGTCP2_MAX_CIDLEN < hd.dcid.length ∨
      NGTCP2_MAX_CIDLEN < hd.scid.length))]
    simp only [hfs, Bool.false_eq_true, if_false, hshort, if_true]
    rw [hmsr, htr]
    simp
  · intro htr
    have htc : tokenConsumedB st n o = false := by
      unfold tokenConsumedB
      simp [hdec, htr, MaybeStatelessReset_fst]
    constructor
    · have hstep := OnReceive_accounting st n r o (by omega)
      rw [htc] at hstep
      simp [hdrop] at hstep
      omega
    · unfold OnReceive
      simp only [hdrop, Bool.false_eq_true, if_false, hdec]
      rw [if_neg (by omega : ¬ (NGTCP2_MAX_CIDLEN < hd.dcid.length ∨
        NGTCP2_MAX_CIDLEN < hd.scid.length))]
      simp only [hfs, Bool.false_eq_true, if_false, hshort, if_true]
      rw [hmsr, htr]
      simp only [Bool.false_eq_true, if_false]
      rcases hacc : (AcceptInitialPacket
          { st with bytesReceived := st.bytesReceived + n }
          hd.version hd.dcid hd.scid r o.accept).1 with _ | ec
      · simp only [hacc]
        split <;> simp
      · simp only [hacc]
        cases o.sessionRecv <;> simp

/-- An `OnReceive` oracle for the token-recognition path: short header,
no session, token found; `tokenRecv` chooses the delivered session's
`Receive` result. -/
def c4Oracle (tokenRecv : Bool) : RecvOracle where
  rxDrop := false
  decoded := some { version := NGTCP2_PROTO_VER, dcid := [7],
                    scidPresent := false, scid := [] }
  findSession := false
  tokenFound := true
  tokenRecv := tokenRecv
  accept := { classify := InitialPacketResult.PACKET_IGNORE,
              hdIsInitial := false, isValidatedAddr := false,
              retryTokenValid := false, factoryOk := false,
              vnNwrite := 0, vnTxDrop := false, vnSendErr := 0,
              retryTokenGenOk := false, retryNwrite := 0,
              retryTxDrop := false, retrySendErr := 0 }
  sessionRecv := false
  resetNwrite := 0
  resetTxDrop := false
  resetSendErr := 0

/-- C4 counterexample: the trailing bytes match a token and the indexed
session's `Receive` is invoked (leading `tokenReceive false` event) but
returns false; processing does not stop: the accept path runs and
`packets_ignored` is charged, contradicting "processing stops there
regardless of the boolean that receive returns". -/
theorem maybeStatelessReset_stop_counterexample :
    (OnReceive c1State 20 [5] (c4Oracle false)).2.head? =
      some (Event.tokenReceive false) ∧
    ¬ ((OnReceive c1State 20 [5] (c4Oracle false)).1.packetsIgnored
        = c1State.packetsIgnored) := by
  constructor
  · decide
  · decide

/-- Witness for C4 (amended) at a concrete token-consumed datagram. -/
theorem maybeStatelessReset_stop_witness :
    (c4Oracle true).tokenRecv = true ∧
    OnReceive c1State 20 [5] (c4Oracle true) =
      ({ c1State with bytesReceived := c1State.bytesReceived + 20 },
       [Event.tokenReceive true]) :=
  ⟨rfl,
   (maybeStatelessReset_stop c1State 20 [5] (c4Oracle true)
      { version := NGTCP2_PROTO_VER, dcid := [7],
        scidPresent := false, scid := [] }
      rfl rfl (by decide) (by decide) rfl (by decide) rfl (by decide)
      rfl).1 rfl⟩

/-- C5: after the classifier returns OK, `initial_connection_close` is
`SERVER_BUSY` iff the server-busy flag is set or the per-peer
connection count has reached `max_connections_per_host`; in that case
address validation is skipped entirely and control still reaches the
session factory, so the session (when the factory succeeds) is created
carrying `SERVER_BUSY` rather than the packet being dropped. -/
theorem acceptInitial_serverBusy (st : SocketState) (v : Nat)
    (dcid scid remote : List Nat) (o : AcceptOracle)
    (hl : st.listening = true)
    (hc : o.classify = InitialPacketResult.PACKET_OK) :
    (earlyClose st remote = ECode.serverBusy ↔
      (st.serverBusy = true ∨
       st.maxConnectionsPerHost ≤ st.addrCounts remote)) ∧
    (earlyClose st remote = ECode.serverBusy →
      AcceptInitialPacket st v dcid scid remote o =
        (if o.factoryOk then some ECode.serverBusy else none, st,
         [Event.sessionReady
           (if o.factoryOk then some ECode.serverBusy else none)])) := by
  constructor
  · unfold earlyClose
    by_cases h1 : st.serverBusy = true <;>
      by_cases h2 : st.maxConnectionsPerHost ≤ st.addrCounts remote <;>
        simp [h1, h2]
  · intro hbusy
    obtain ⟨cl, hi, iv, rv, fo, vnw, vtd, vse, rg, rnw, rtd, rse⟩ := o
    cases hc
    unfold AcceptInitialPacket
    simp only [hl, Bool.not_true, Bool.false_eq_true, if_false]
    dsimp only
    rw [if_neg (by rw [hbusy]; simp)]
    rw [hbusy]

/-- A listening, server-busy socket for the C5 witness. -/
def c5State : SocketState where
  listening := true
  serverBusy := true
  resetDisabled := false
  validateAddress := true
  maxConnectionsPerHost := 10
  maxStatelessResetsPerHost := 10
  addrCounts := fun _ => 0
  resetCounts := fun _ => 0
  packetsReceived := 0
  packetsIgnored := 0
  statelessResetCount := 0
  bytesReceived := 0
  bytesSent := 0
  packetsSent := 0

/-- An accept oracle with classifier OK, an INITIAL header carrying no
valid retry token, and a succeeding session factory, for C5. -/
def c5Oracle : AcceptOracle where
  classify := InitialPacketResult.PACKET_OK
  hdIsInitial := true
  isValidatedAddr := false
  retryTokenValid := false
  factoryOk := true
  vnNwrite := 0
  vnTxDrop := false
  vnSendErr := 0
  retryTokenGenOk := true
  retryNwrite := 50
  retryTxDrop := false
  retrySendErr := 0

/-- Witness for C5: on a busy listening socket, even with address
validation on and no valid retry token, the validation branch is
skipped and the session is created with `SERVER_BUSY`. -/
theorem acceptInitial_serverBusy_witness :
    c5State.listening = true ∧
    c5Oracle.classify = InitialPacketResult.PACKET_OK ∧
    (earlyClose c5State [9] = ECode.serverBusy ↔
      (c5State.serverBusy = true ∨
       c5State.maxConnectionsPerHost ≤ c5State.addrCounts [9])) ∧
    AcceptInitialPacket c5State 1 [1] [2] [9] c5Oracle =
      (some ECode.serverBusy, c5State,
       [Event.sessionReady (some ECode.serverBusy)]) := by
  have h := acceptInitial_serverBusy c5State 1 [1] [2] [9] c5Oracle rfl rfl
  exact ⟨rfl, rfl, h.1, by rw [h.2 (by decide)]; rfl⟩

/-- An operation driving the socket: a datagram delivered to
`OnReceive`, or a direct `SendStatelessReset` attempt. -/
inductive Op where
  | recv (d : Datagram)
  | sreset (cid : List Nat) (remote : List Nat) (sourceLen : Nat)
           (nwrite : Int) (txDrop : Bool) (sendErr : Int)

/-- Apply one operation to the socket state. -/
def applyOp (st : SocketState) : Op → SocketState
  | Op.recv d => (OnReceive st d.nread d.remote d.oracle).1
  | Op.sreset cid remote sl nw t e =>
      (SendStatelessReset st cid remote sl nw t e).2.1

/-- C6: starting from any state respecting the cap (in particular the
boot state with all counters zero), every reachable state satisfies
`resets_by_peer[p] <= max_resets_per_peer` for every peer `p`: once a
peer's counter reaches the cap, `SendStatelessReset` refuses before
incrementing. -/
theorem resets_per_peer_bounded (ops : List Op) (st0 : SocketState)
    (hb : ∀ q, st0.resetCounts q ≤ st0.maxStatelessResetsPerHost) :
    ∀ q, (ops.foldl applyOp st0).resetCounts q ≤
      st0.maxStatelessResetsPerHost := by
  induction ops generalizing st0 with
  | nil => exact hb
  | cons op ops ih =>
    intro q
    have hmax : (applyOp st0 op).maxStatelessResetsPerHost
        = st0.maxStatelessResetsPerHost := by
      cases op with
      | recv d =>
        exact (OnReceive_cfg st0 d.nread d.remote d.oracle).2.2.2.2.2.1
      | sreset cid remote sl nw t e => simp [applyOp]
    have hb2 : ∀ q2, (applyOp st0 op).resetCounts q2 ≤
        (applyOp st0 op).maxStatelessResetsPerHost := by
      intro q2
      rw [hmax]
      cases op with
      | recv d => exact OnReceive_resetCounts_le st0 d.nread d.remote d.oracle hb q2
      | sreset cid remote sl nw t e =>
        exact SendStatelessReset_resetCounts_le st0 cid remote sl nw t e hb q2
    have hfold := ih (applyOp st0 op) hb2 q
    rw [hmax] at hfold
    exact hfold

/-- A boot state with all counters zero, stateless reset enabled, and
a reset cap of 3, used by C6, C7 and C10. -/
def c7InitState : SocketState where
  listening := false
  serverBusy := false
  resetDisabled := false
  validateAddress := false
  maxConnectionsPerHost := 10
  maxStatelessResetsPerHost := 3
  addrCounts := fun _ => 0
  resetCounts := fun _ => 0
  packetsReceived := 0
  packetsIgnored := 0
  statelessResetCount := 0
  bytesReceived := 0
  bytesSent := 0
  packetsSent := 0

/-- Witness for C6: five stateless-reset attempts towards one peer
against a cap of 3 leave its counter at the cap. -/
theorem resets_per_peer_bounded_witness :
    (∀ q, c7InitState.resetCounts q ≤ c7InitState.maxStatelessResetsPerHost) ∧
    (∀ q, ((List.replicate 5 (Op.sreset [1] [9] 100 41 false 0)).foldl
        applyOp c7InitState).resetCounts q ≤
      c7InitState.maxStatelessResetsPerHost) :=
  ⟨fun q => Nat.zero_le _,
   resets_per_peer_bounded (List.replicate 5 (Op.sreset [1] [9] 100 41 false 0))
     c7InitState (fun q => Nat.zero_le _)⟩

/-- Any datagram `SendPacket` enqueues has exactly the packet's
length. -/
lemma SendPacket_enqueued_mem (st : SocketState) (l : String) (n : Nat)
    (r : List Nat) (t : Bool) (e : Int) (l2 : String) (n2 : Nat)
    (r2 : List Nat) :
    Event.enqueued l2 n2 r2 ∈ (SendPacket st l n r t e).2.2 → n2 = n := by
  unfold SendPacket
  repeat' split
  all_goals intro hm
  all_goals simp_all

/-- C7 (amended): `send_stateless_reset` emits nothing (returns false
with no events) whenever stateless reset is disabled, the peer's
counter has reached the cap, `source_len - 1 < 41`, or the encoder
wrote fewer than 41 bytes; whenever it does emit a packet, that
packet's length is exactly the encoder's byte count `nwrite` (at least
41) - not `source_len - 1`, which only bounds the buffer capacity. -/
theorem sendStatelessReset_guards (st : SocketState) (cid remote : List Nat)
    (sl : Nat) (nw : Int) (t : Bool) (e : Int) (h0 : 0 < sl) :
    ((st.resetDisabled = true ∨
      st.maxStatelessResetsPerHost ≤ st.resetCounts remote ∨
      sl - 1 < kMinStatelessResetLen ∨
      nw < (kMinStatelessResetLen : Int)) →
      (SendStatelessReset st cid remote sl nw t e).1 = false ∧
      (SendStatelessReset st cid remote sl nw t e).2.2 = []) ∧
    (∀ l n2 r2, Event.enqueued l n2 r2 ∈
        (SendStatelessReset st cid remote sl nw t e).2.2 →
      n2 = nw.toNat ∧ kMinStatelessResetLen ≤ n2) := by
  have hpkt : sourcePktLen sl = sl - 1 := by
    unfold sourcePktLen
    rw [if_neg (by omega)]
  constructor
  · intro hrej
    unfold SendStatelessReset
    split
    · exact ⟨rfl, rfl⟩
    · split
      · exact ⟨rfl, rfl⟩
      · split
        · exact ⟨rfl, rfl⟩
        · split
          · exact ⟨rfl, rfl⟩
          · rename_i h1 h2 h3 h4
            rw [hpkt] at h3
            rcases hrej with h5 | h5 | h5 | h5
            · exact absurd h5 h1
            · exact absurd h5 h2
            · exact absurd h5 h3
            · exact absurd h5 h4
  · intro l n2 r2 hm
    unfold SendStatelessReset at hm
    revert hm
    split
    · intro hm
      simp at hm
    · split
      · intro hm
        simp at hm
      · split
        · intro hm
          simp at hm
        · split
          · intro hm
            simp at hm
          · rename_i h1 h2 h3 h4
            intro hm
            have hlen := SendPacket_enqueued_mem _ _ _ _ _ _ _ _ _ hm
            refine ⟨hlen, ?_⟩
            rw [hlen]
            unfold kMinStatelessResetLen at h4 ⊢
            omega

/-- C7 counterexample: a 100-byte triggering packet with the encoder
writing 41 bytes (what `ngtcp2_pkt_write_stateless_reset` produces for
`kRandlen = 25`) yields an emitted reset packet of length 41, not
`source_len - 1 = 99`, refuting the claimed emitted length. -/
theorem sendStatelessReset_len_counterexample :
    (SendStatelessReset c7InitState [1] [9] 100 41 false 0).1 = true ∧
    (SendStatelessReset c7InitState [1] [9] 100 41 false 0).2.2 =
      [Event.enqueued "stateless reset" 41 [9]] ∧
    (41 : Nat) ≠ 100 - 1 := by
  refine ⟨?_, ?_, by decide⟩
  · decide
  · decide

/-- Witness for C7 (amended): at the concrete input the guard clause
applies when the counter is at the cap, and the emitted packet of the
successful call has length `nwrite = 41 ≥ 41`. -/
theorem sendStatelessReset_guards_witness :
    ((SendStatelessReset
        { c7InitState with resetCounts := fun _ => 3 } [1] [9] 100 41 false 0).1
        = false ∧
     (SendStatelessReset
        { c7InitState with resetCounts := fun _ => 3 } [1] [9] 100 41 false 0).2.2
        = []) ∧
    ((41 : Nat) = (41 : Int).toNat ∧ kMinStatelessResetLen ≤ 41) :=
  ⟨(sendStatelessReset_guards
      { c7InitState with resetCounts := fun _ => 3 } [1] [9] 100 41 false 0
      (by decide)).1 (Or.inr (Or.inl (by decide))),
   (sendStatelessReset_guards c7InitState [1] [9] 100 41 false 0
      (by decide)).2 "stateless reset" 41 [9] (by decide)⟩

/-- C9: `send_packet` returns 0 without sending for an empty packet,
returns 0 without sending when the tx-loss draw drops, returns 0 and
enqueues the datagram otherwise on success, and on a synchronous
negative send result returns that errno with the packet dropped (not
enqueued) and `OnSend` invoked inline with that status (which charges
no statistics, leaving the state unchanged). -/
theorem sendPacket_result (st : SocketState) (l : String) (n : Nat)
    (r : List Nat) (t : Bool) (e : Int) :
    (SendPacket st l 0 r t e = (0, st, [])) ∧
    (t = true → SendPacket st l n r t e = (0, st, [])) ∧
    (t = false → e = 0 → n ≠ 0 →
      SendPacket st l n r t e = (0, st, [Event.enqueued l n r])) ∧
    (t = false → e < 0 → n ≠ 0 →
      SendPacket st l n r t e = (e, st, [Event.onSendInline e])) := by
  refine ⟨?_, ?_, ?_, ?_⟩
  · unfold SendPacket
    rw [if_pos rfl]
  · intro ht
    unfold SendPacket
    by_cases hn : n = 0
    · rw [if_pos hn]
    · rw [if_neg hn, ht, if_pos rfl]
  · intro ht he hn
    unfold SendPacket
    rw [if_neg hn, ht, if_neg (by simp), if_pos he]
  · intro ht he hn
    unfold SendPacket
    rw [if_neg hn, ht, if_neg (by simp), if_neg (by omega), if_neg (by omega)]
    unfold OnSend
    rw [if_neg (by omega)]

/-- Witness for C9: the four cases evaluated at a concrete state with
length 10, peer [9], and errno -12. -/
theorem sendPacket_result_witness :
    (SendPacket c1State "probe" 0 [9] false 0 = (0, c1State, [])) ∧
    (SendPacket c1State "probe" 10 [9] true 0 = (0, c1State, [])) ∧
    (SendPacket c1State "probe" 10 [9] false 0 =
      (0, c1State, [Event.enqueued "probe" 10 [9]])) ∧
    (SendPacket c1State "probe" 10 [9] false (-12) =
      (-12, c1State, [Event.onSendInline (-12)])) :=
  ⟨(sendPacket_result c1State "probe" 10 [9] false 0).1,
   (sendPacket_result c1State "probe" 10 [9] true 0).2.1 rfl,
   (sendPacket_result c1State "probe" 10 [9] false 0).2.2.1 rfl rfl
     (by decide),
   (sendPacket_result c1State "probe" 10 [9] false (-12)).2.2.2 rfl
     (by decide) (by decide)⟩

/-- C10: once the guards pass and the encoder writes at least 41
bytes, `SendStatelessReset` increments the peer's reset counter exactly
once before consulting `SendPacket`, never touches the
`stateless_reset_count` statistic itself, and returns failure when the
send fails synchronously (the increment persisting); `OnReceive`
charges the statistic exactly when `SendStatelessReset` returns true,
so the per-peer counter counts attempted emissions while the statistic
counts successful ones. -/
theorem statelessReset_counter_vs_stat (st : SocketState)
    (cid remote : List Nat) (sl : Nat) (nw : Int) (t : Bool) (e : Int)
    (hdis : st.resetDisabled = false)
    (hcnt : st.resetCounts remote < st.maxStatelessResetsPerHost)
    (h0 : 0 < sl) (hsl : kMinStatelessResetLen ≤ sl - 1)
    (hnw : (kMinStatelessResetLen : Int) ≤ nw) :
    ((SendStatelessReset st cid remote sl nw t e).2.1.resetCounts remote
        = st.resetCounts remote + 1) ∧
    ((SendStatelessReset st cid remote sl nw t e).2.1.statelessResetCount
        = st.statelessResetCount) ∧
    (t = false → e < 0 →
      (SendStatelessReset st cid remote sl nw t e).1 = false) ∧
    (∀ (st2 : SocketState) (n2 : Nat) (r2 : List Nat) (o : RecvOracle)
        (hdr : Hdr),
      st2.listening = false → o.rxDrop = false → o.decoded = some hdr →
      hdr.dcid.length ≤ NGTCP2_MAX_CIDLEN →
      hdr.scid.length ≤ NGTCP2_MAX_CIDLEN →
      o.findSession = false →
      IsShortHeader hdr.version hdr.scidPresent hdr.scid.length = true →
      o.tokenFound = false →
      (OnReceive st2 n2 r2 o).1.statelessResetCount
        = st2.statelessResetCount +
          (if (SendStatelessReset
                { st2 with bytesReceived := st2.bytesReceived + n2 }
                hdr.dcid r2 n2 o.resetNwrite o.resetTxDrop o.resetSendErr).1
           then 1 else 0)) := by
  have hpkt : sourcePktLen sl = sl - 1 := by
    unfold sourcePktLen
    rw [if_neg (by omega)]
  have hnw41 : (41 : Int) ≤ nw := hnw
  have hsl41 : 41 ≤ sl - 1 := hsl
  have hopen : SendStatelessReset st cid remote sl nw t e =
      (let st2 := { st with resetCounts :=
          fun p => if p = remote then st.resetCounts remote + 1
                   else st.resetCounts p }
       let r := SendPacket st2 "stateless reset" nw.toNat remote t e
       (decide (r.1 = 0), r.2.1, r.2.2)) := by
    unfold SendStatelessReset
    rw [hpkt]
    rw [if_neg (by simp [hdis]), if_neg (by omega), if_neg (by omega),
        if_neg (by omega)]
  refine ⟨?_, ?_, ?_, ?_⟩
  · rw [hopen]
    obtain ⟨b, p, hsp⟩ := SendPacket_txOnly
      { st with resetCounts :=
          fun p => if p = remote then st.resetCounts remote + 1
                   else st.resetCounts p }
      "stateless reset" nw.toNat remote t e
    dsimp only
    rw [hsp]
    simp
  · simp
  · intro ht he
    rw [hopen]
    dsimp only
    unfold SendPacket
    rw [if_neg (by omega : ¬ nw.toNat = 0), ht, if_neg (by simp),
        if_neg (by omega), if_neg (by omega)]
    simp
    omega
  · intro st2 n2 r2 o hdr hls hdrop hdec hc1 hc2 hfs hshort htf
    unfold OnReceive
    simp only [hdrop, Bool.false_eq_true, if_false, hdec]
    rw [if_neg (by omega : ¬ (NGTCP2_MAX_CIDLEN < hdr.dcid.length ∨
      NGTCP2_MAX_CIDLEN < hdr.scid.length))]
    simp only [hfs, Bool.false_eq_true, if_false, hshort, if_true]
    have hmsr : (MaybeStatelessReset
        { st2 with bytesReceived := st2.bytesReceived + n2 }
        n2 o.tokenFound o.tokenRecv).1 = false := by
      rw [MaybeStatelessReset_fst, htf]
      simp
    rw [hmsr]
    simp only [Bool.false_eq_true, if_false]
    have hacc : AcceptInitialPacket
        { st2 with bytesReceived := st2.bytesReceived + n2 }
        hdr.version hdr.dcid hdr.scid r2 o.accept =
        (none, { st2 with bytesReceived := st2.bytesReceived + n2 }, []) := by
      unfold AcceptInitialPacket
      rw [if_pos (by simp [hls])]
    rw [hacc]
    dsimp only
    cases hrr : (SendStatelessReset
        { st2 with bytesReceived := st2.bytesReceived + n2 }
        hdr.dcid r2 n2 o.resetNwrite o.resetTxDrop o.resetSendErr).1
    · simp [hrr]
    · simp [hrr]

/-- A datagram whose stateless-reset send fails synchronously with
errno -12, for C10. -/
def c10Oracle : RecvOracle where
  rxDrop := false
  decoded := some { version := NGTCP2_PROTO_VER, dcid := [7],
                    scidPresent := false, scid := [] }
  findSession := false
  tokenFound := false
  tokenRecv := false
  accept := { classify := InitialPacketResult.PACKET_IGNORE,
              hdIsInitial := false, isValidatedAddr := false,
              retryTokenValid := false, factoryOk := false,
              vnNwrite := 0, vnTxDrop := false, vnSendErr := 0,
              retryTokenGenOk := false, retryNwrite := 0,
              retryTxDrop := false, retrySendErr := 0 }
  sessionRecv := false
  resetNwrite := 41
  resetTxDrop := false
  resetSendErr := -12

/-- Witness for C10 at a concrete failing send: the counter is charged,
the function reports failure, and the `OnReceive` statistic equation
holds for the concrete datagram. -/
theorem statelessReset_counter_vs_stat_witness :
    ((SendStatelessReset c7InitState [7] [9] 50 41 false (-12)).2.1.resetCounts [9]
        = c7InitState.resetCounts [9] + 1) ∧
    ((SendStatelessReset c7InitState [7] [9] 50 41 false (-12)).1 = false) ∧
    ((OnReceive c7InitState 50 [9] c10Oracle).1.statelessResetCount
        = c7InitState.statelessResetCount +
          (if (SendStatelessReset
                { c7InitState with bytesReceived := c7InitState.bytesReceived + 50 }
                [7] [9] 50 (41 : Int) false (-12)).1
           then 1 else 0)) := by
  have h := statelessReset_counter_vs_stat c7InitState [7] [9] 50 41 false (-12)
    rfl (by decide) (by decide) (by decide) (by decide)
  exact ⟨h.1, h.2.2.1 rfl (by decide),
    h.2.2.2 c7InitState 50 [9] c10Oracle
      { version := NGTCP2_PROTO_VER, dcid := [7],
        scidPresent := false, scid := [] }
      rfl rfl rfl (by decide) (by decide) rfl (by decide) rfl⟩
